import Mathlib

/-!
Verification of the dxcc-tracker core against its specification.

The development shallowly embeds the Python sources:
  - `app/dxcc_prefixes.py`  (entity directory, prefix rules, longest-prefix lookup,
    extended-data loading),
  - `app/database.py`       (callsign enrichment, QSO store contract, need list),
  - `app/main.py`           (`dxcc_from_call`),
  - `app/adif_import.py`    (ADIF record parsing and the import pipeline).

Python strings are embedded as Lean `String`; `str.strip/upper/lower/startswith/endswith`
are re-implemented over the character list so that all definitions evaluate in the
kernel.  Python dicts appear as association lists (first-key lookup; the concrete
dictionaries in the source have pairwise distinct keys), Python sets appear as lists
consumed only through membership, and the SQLite QSO table appears as a list of rows
in insertion order (`INSERT` appends; `SELECT ... LIMIT`-free `fetchone` takes the
first match, embedded as `List.find?`).

`database.py` imports `resolve_callsign`, `entity_for_callsign`, `prefix_for_callsign`
and `load_dxcc_data` from `app.dxcc_prefixes`, but the `dxcc_prefixes.py` in the tree
does not define them (it defines the dataclass-based variant with
`lookup_entity_id_from_call`).  Those resolver entry points are therefore modelled
from the specification text (§4.2); each such definition carries a doc comment
starting with `Modelled from the spec:`.
-/

namespace DxccTracker

/-! ### Python string primitives -/

/-- Python `str.upper()` (ASCII callsign data). -/
def upperStr (s : String) : String := ⟨s.data.map Char.toUpper⟩

/-- Python `str.lower()` (ASCII band data). -/
def lowerStr (s : String) : String := ⟨s.data.map Char.toLower⟩

/-- Python `str.strip()`: drop leading and trailing whitespace. -/
def stripStr (s : String) : String :=
  ⟨((s.data.dropWhile Char.isWhitespace).reverse.dropWhile Char.isWhitespace).reverse⟩

/-- Python `s.startswith(p)`. -/
def startsWithStr (s p : String) : Bool := p.data.isPrefixOf s.data

/-- Python `s.endswith(p)`. -/
def endsWithStr (s p : String) : Bool := p.data.isSuffixOf s.data

/-- Python `fallback_country or "Unknown"`: `None` and `""` are falsy. -/
def pyOrUnknown (s : Option String) : String :=
  match s with
  | none => "Unknown"
  | some v => if v = "" then "Unknown" else v

/-! ### `app/dxcc_prefixes.py`: data structures -/

/-- Embeds `@dataclass(frozen=True) class DXCCEntity` — id, display name, active flag. -/
structure DXCCEntity where
  id : String
  name : String
  active : Bool
deriving DecidableEq, Repr

/-- Embeds `@dataclass(frozen=True) class PrefixRule` — a callsign-prefix-to-entity rule.
(`prefix` is a Lean keyword, so the field is named `pfx`.) -/
structure PrefixRule where
  pfx : String
  entity_id : String
deriving DecidableEq, Repr

/-- Python `dict.get` on an association list (source dicts have distinct keys). -/
def dictGet (m : List (String × DXCCEntity)) (k : String) : Option DXCCEntity :=
  (m.find? (fun kv => kv.1 = k)).map (fun kv => kv.2)

/-- Python `key in dict`. -/
def dictContains (m : List (String × DXCCEntity)) (k : String) : Bool :=
  (m.find? (fun kv => kv.1 = k)).isSome

def entitiesChunk0 : List (String × DXCCEntity) :=
  [("USA", ⟨"USA", "United States", true⟩),
   ("ALASKA", ⟨"ALASKA", "Alaska", true⟩),
   ("HAWAII", ⟨"HAWAII", "Hawaii", true⟩),
   ("PUERTO_RICO", ⟨"PUERTO_RICO", "Puerto Rico", true⟩),
   ("US_VIRGIN", ⟨"US_VIRGIN", "US Virgin Islands", true⟩),
   ("GUANTANAMO", ⟨"GUANTANAMO", "Guantanamo Bay", true⟩),
   ("CANADA", ⟨"CANADA", "Canada", true⟩),
   ("MEXICO", ⟨"MEXICO", "Mexico", true⟩),
   ("BERMUDA", ⟨"BERMUDA", "Bermuda", true⟩),
   ("GREENLAND", ⟨"GREENLAND", "Greenland", true⟩)]

def entitiesChunk1 : List (String × DXCCEntity) :=
  [("ST_PIERRE_MIQUELON", ⟨"SPM", "St Pierre & Miquelon", true⟩),
   ("CAYMAN", ⟨"CAYMAN", "Cayman Islands", true⟩),
   ("BAHAMAS", ⟨"BAHAMAS", "Bahamas", true⟩),
   ("BARBADOS", ⟨"BARBADOS", "Barbados", true⟩),
   ("TURKS_CAICOS", ⟨"TURKS_CAICOS", "Turks & Caicos", true⟩),
   ("ENGLAND", ⟨"ENGLAND", "England", true⟩),
   ("SCOTLAND", ⟨"SCOTLAND", "Scotland", true⟩),
   ("WALES", ⟨"WALES", "Wales", true⟩),
   ("N_IRELAND", ⟨"N_IRELAND", "Northern Ireland", true⟩),
   ("ISLE_OF_MAN", ⟨"ISLE_OF_MAN", "Isle of Man", true⟩)]

def entitiesChunk2 : List (String × DXCCEntity) :=
  [("GUERNSEY", ⟨"GUERNSEY", "Guernsey", true⟩),
   ("JERSEY", ⟨"JERSEY", "Jersey", true⟩),
   ("FRANCE", ⟨"FRANCE", "France", true⟩),
   ("CORSICA", ⟨"CORSICA", "Corsica", true⟩),
   ("MONACO", ⟨"MONACO", "Monaco", true⟩),
   ("SPAIN", ⟨"SPAIN", "Spain", true⟩),
   ("PORTUGAL", ⟨"PORTUGAL", "Portugal", true⟩),
   ("ITALY", ⟨"ITALY", "Italy", true⟩),
   ("SARDINIA", ⟨"SARDINIA", "Sardinia", true⟩),
   ("SICILY", ⟨"SICILY", "Sicily", true⟩)]

def entitiesChunk3 : List (String × DXCCEntity) :=
  [("GERMANY", ⟨"GERMANY", "Germany", true⟩),
   ("AUSTRIA", ⟨"AUSTRIA", "Austria", true⟩),
   ("SWITZERLAND", ⟨"SWITZERLAND", "Switzerland", true⟩),
   ("BELGIUM", ⟨"BELGIUM", "Belgium", true⟩),
   ("NETHERLANDS", ⟨"NETHERLANDS", "Netherlands", true⟩),
   ("LUXEMBOURG", ⟨"LUXEMBOURG", "Luxembourg", true⟩),
   ("DENMARK", ⟨"DENMARK", "Denmark", true⟩),
   ("NORWAY", ⟨"NORWAY", "Norway", true⟩),
   ("SWEDEN", ⟨"SWEDEN", "Sweden", true⟩),
   ("FINLAND", ⟨"FINLAND", "Finland", true⟩)]

def entitiesChunk4 : List (String × DXCCEntity) :=
  [("POLAND", ⟨"POLAND", "Poland", true⟩),
   ("CZECH", ⟨"CZECH", "Czech Republic", true⟩),
   ("SLOVAKIA", ⟨"SLOVAKIA", "Slovakia", true⟩),
   ("HUNGARY", ⟨"HUNGARY", "Hungary", true⟩),
   ("ROMANIA", ⟨"ROMANIA", "Romania", true⟩),
   ("BULGARIA", ⟨"BULGARIA", "Bulgaria", true⟩),
   ("UKRAINE", ⟨"UKRAINE", "Ukraine", true⟩),
   ("RUSSIA_EU", ⟨"RUSSIA_EU", "European Russia", true⟩),
   ("RUSSIA_AS", ⟨"RUSSIA_AS", "Asiatic Russia", true⟩),
   ("JAPAN", ⟨"JAPAN", "Japan", true⟩)]

def entitiesChunk5 : List (String × DXCCEntity) :=
  [("KOREA_S", ⟨"KOREA_S", "South Korea", true⟩),
   ("CHINA", ⟨"CHINA", "China", true⟩),
   ("TAIWAN", ⟨"TAIWAN", "Taiwan", true⟩),
   ("HONG_KONG", ⟨"HONG_KONG", "Hong Kong", true⟩),
   ("MACAU", ⟨"MACAU", "Macau", true⟩),
   ("PHILIPPINES", ⟨"PHILIPPINES", "Philippines", true⟩),
   ("THAILAND", ⟨"THAILAND", "Thailand", true⟩),
   ("VIETNAM", ⟨"VIETNAM", "Vietnam", true⟩),
   ("CAMBODIA", ⟨"CAMBODIA", "Cambodia", true⟩),
   ("LAOS", ⟨"LAOS", "Laos", true⟩)]

def entitiesChunk6 : List (String × DXCCEntity) :=
  [("MALAYSIA_W", ⟨"MALAYSIA_W", "West Malaysia", true⟩),
   ("MALAYSIA_E", ⟨"MALAYSIA_E", "East Malaysia", true⟩),
   ("SINGAPORE", ⟨"SINGAPORE", "Singapore", true⟩),
   ("INDIA", ⟨"INDIA", "India", true⟩),
   ("SRI_LANKA", ⟨"SRI_LANKA", "Sri Lanka", true⟩),
   ("VK_MAIN", ⟨"VK_MAIN", "Australia", true⟩),
   ("VK0_HEARD", ⟨"VK0_HEARD", "Heard Island", true⟩),
   ("VK0_MACQ", ⟨"VK0_MACQ", "Macquarie Island", true⟩),
   ("VK9_NORFOLK", ⟨"VK9_NORFOLK", "Norfolk Island", true⟩),
   ("VK9_LORD_HOWE", ⟨"VK9_LORD_HOWE", "Lord Howe Island", true⟩)]

def entitiesChunk7 : List (String × DXCCEntity) :=
  [("VK9_CHRISTMAS", ⟨"VK9_CHRISTMAS", "Christmas Island", true⟩),
   ("VK9_COCOS", ⟨"VK9_COCOS", "Cocos (Keeling) Islands", true⟩),
   ("ZL_MAIN", ⟨"ZL_MAIN", "New Zealand", true⟩),
   ("ZL7_CHATHAM", ⟨"ZL7_CHATHAM", "Chatham Islands", true⟩),
   ("ZL8_KERMADEC", ⟨"ZL8_KERMADEC", "Kermadec Islands", true⟩),
   ("ZL9_AUCKLAND", ⟨"ZL9_AUCKLAND", "Auckland & Campbell Islands", true⟩),
   ("FIJI", ⟨"FIJI", "Fiji", true⟩),
   ("AMERICAN_SAMOA", ⟨"AMERICAN_SAMOA", "American Samoa", true⟩),
   ("SAMOA", ⟨"SAMOA", "Samoa", true⟩),
   ("TONGA", ⟨"TONGA", "Tonga", true⟩)]

def entitiesChunk8 : List (String × DXCCEntity) :=
  [("COOK_N", ⟨"COOK_N", "North Cook Islands", true⟩),
   ("COOK_S", ⟨"COOK_S", "South Cook Islands", true⟩),
   ("SOUTH_AFRICA", ⟨"SOUTH_AFRICA", "South Africa", true⟩),
   ("NAMIBIA", ⟨"NAMIBIA", "Namibia", true⟩),
   ("BOTSWANA", ⟨"BOTSWANA", "Botswana", true⟩),
   ("ZIMBABWE", ⟨"ZIMBABWE", "Zimbabwe", true⟩),
   ("ANGOLA", ⟨"ANGOLA", "Angola", true⟩),
   ("KENYA", ⟨"KENYA", "Kenya", true⟩),
   ("TANZANIA", ⟨"TANZANIA", "Tanzania", true⟩),
   ("ETHIOPIA", ⟨"ETHIOPIA", "Ethiopia", true⟩)]

def entitiesChunk9 : List (String × DXCCEntity) :=
  [("MADAGASCAR", ⟨"MADAGASCAR", "Madagascar", true⟩),
   ("ARGENTINA", ⟨"ARGENTINA", "Argentina", true⟩),
   ("BRAZIL", ⟨"BRAZIL", "Brazil", true⟩),
   ("CHILE", ⟨"CHILE", "Chile", true⟩),
   ("URUGUAY", ⟨"URUGUAY", "Uruguay", true⟩),
   ("PARAGUAY", ⟨"PARAGUAY", "Paraguay", true⟩),
   ("PERU", ⟨"PERU", "Peru", true⟩),
   ("COLOMBIA", ⟨"COLOMBIA", "Colombia", true⟩),
   ("ECUADOR", ⟨"ECUADOR", "Ecuador", true⟩),
   ("GALAPAGOS", ⟨"GALAPAGOS", "Galapagos Islands", true⟩)]

def entitiesChunk10 : List (String × DXCCEntity) :=
  [("HONDURAS", ⟨"HONDURAS", "Honduras", true⟩),
   ("GUATEMALA", ⟨"GUATEMALA", "Guatemala", true⟩),
   ("EL_SALVADOR", ⟨"EL_SALVADOR", "El Salvador", true⟩),
   ("NICARAGUA", ⟨"NICARAGUA", "Nicaragua", true⟩),
   ("COSTA_RICA", ⟨"COSTA_RICA", "Costa Rica", true⟩),
   ("PANAMA", ⟨"PANAMA", "Panama", true⟩),
   ("CUBA", ⟨"CUBA", "Cuba", true⟩),
   ("DOMINICAN", ⟨"DOMINICAN", "Dominican Republic", true⟩),
   ("HAITI", ⟨"HAITI", "Haiti", true⟩),
   ("E_GERMANY", ⟨"E_GERMANY", "East Germany", false⟩)]

def entitiesChunk11 : List (String × DXCCEntity) :=
  [("W_GERMANY", ⟨"W_GERMANY", "West Germany", false⟩),
   ("CZECHOSLOVAKIA", ⟨"CZECHOSLOVAKIA", "Czechoslovakia", false⟩),
   ("YUGOSLAVIA", ⟨"YUGOSLAVIA", "Yugoslavia", false⟩),
   ("USSR", ⟨"USSR", "USSR", false⟩),
   ("CANAL_ZONE", ⟨"CANAL_ZONE", "Panama Canal Zone", false⟩),
   ("RHODESIA", ⟨"RHODESIA", "Southern Rhodesia", false⟩),
   ("SAAR", ⟨"SAAR", "Saar", false⟩)]

/-- Embeds `DXCC_ENTITIES` from `app/dxcc_prefixes.py`, in source (insertion) order
(split into chunks only to keep elaboration cheap; concatenation preserves
the source order). -/
def DXCC_ENTITIES : List (String × DXCCEntity) :=
  entitiesChunk0 ++ entitiesChunk1 ++ entitiesChunk2 ++ entitiesChunk3 ++ entitiesChunk4 ++ entitiesChunk5 ++ entitiesChunk6 ++ entitiesChunk7 ++ entitiesChunk8 ++ entitiesChunk9 ++ entitiesChunk10 ++ entitiesChunk11

/-- Shorthand for one built-in rule entry (`PrefixRule(p, e)` in the source). -/
def R (p e : String) : Option PrefixRule := some ⟨p, e⟩

def rulesChunk0 : List (Option PrefixRule) :=
  [R "KH6" "HAWAII",
   R "KH7" "HAWAII",
   R "KL7" "ALASKA",
   R "AL7" "ALASKA",
   R "NL7" "ALASKA",
   R "WL7" "ALASKA",
   R "KP4" "PUERTO_RICO",
   R "NP4" "PUERTO_RICO",
   R "WP4" "PUERTO_RICO",
   R "KP2" "US_VIRGIN"]

def rulesChunk1 : List (Option PrefixRule) :=
  [R "NP2" "US_VIRGIN",
   R "WP2" "US_VIRGIN",
   R "KG4" "GUANTANAMO",
   R "AA" "USA",
   R "AB" "USA",
   R "AC" "USA",
   R "AD" "USA",
   R "AE" "USA",
   R "AF" "USA",
   R "AG" "USA"]

def rulesChunk2 : List (Option PrefixRule) :=
  [R "AJ" "USA",
   R "AK" "USA",
   R "K" "USA",
   R "N" "USA",
   R "W" "USA",
   R "VO1" "CANADA",
   R "VO2" "CANADA",
   R "VY0" "CANADA",
   R "VY1" "CANADA",
   R "VY2" "CANADA"]

def rulesChunk3 : List (Option PrefixRule) :=
  [R "VA" "CANADA",
   R "VE" "CANADA",
   R "VO" "CANADA",
   R "VY" "CANADA",
   R "XE" "MEXICO",
   R "XF" "MEXICO",
   R "VP9" "BERMUDA",
   R "ZF" "CAYMAN",
   R "C6A" "BAHAMAS",
   R "8P" "BARBADOS"]

def rulesChunk4 : List (Option PrefixRule) :=
  [R "VP5" "TURKS_CAICOS",
   R "GM" "SCOTLAND",
   R "GS" "SCOTLAND",
   R "GW" "WALES",
   R "GN" "N_IRELAND",
   R "GI" "N_IRELAND",
   R "GD" "ISLE_OF_MAN",
   R "GU" "GUERNSEY",
   R "GP" "GUERNSEY",
   R "GJ" "JERSEY"]

def rulesChunk5 : List (Option PrefixRule) :=
  [R "GH" "JERSEY",
   R "G" "ENGLAND",
   R "TK" "CORSICA",
   R "F" "FRANCE",
   R "EA8" "SPAIN",
   R "EA9" "SPAIN",
   R "EA" "SPAIN",
   R "CT" "PORTUGAL",
   (if dictContains DXCC_ENTITIES "MADEIRA" then some ⟨"CT3", "MADEIRA"⟩ else none),
   R "IS0" "SARDINIA"]

def rulesChunk6 : List (Option PrefixRule) :=
  [R "IT9" "SICILY",
   R "I" "ITALY",
   R "DL" "GERMANY",
   R "OE" "AUSTRIA",
   R "HB" "SWITZERLAND",
   R "ON" "BELGIUM",
   R "PA" "NETHERLANDS",
   R "LX" "LUXEMBOURG",
   R "OZ" "DENMARK",
   R "LA" "NORWAY"]

def rulesChunk7 : List (Option PrefixRule) :=
  [R "LN" "NORWAY",
   R "SM" "SWEDEN",
   R "OH" "FINLAND",
   R "SP" "POLAND",
   R "OK" "CZECH",
   R "OL" "CZECH",
   R "OM" "SLOVAKIA",
   R "HA" "HUNGARY",
   R "YO" "ROMANIA",
   R "LZ" "BULGARIA"]

def rulesChunk8 : List (Option PrefixRule) :=
  [R "UR" "UKRAINE",
   R "UX" "UKRAINE",
   R "UA0" "RUSSIA_AS",
   R "RA0" "RUSSIA_AS",
   R "R0" "RUSSIA_AS",
   R "UA" "RUSSIA_EU",
   R "RA" "RUSSIA_EU",
   R "R" "RUSSIA_EU",
   R "JA" "JAPAN",
   R "JE" "JAPAN"]

def rulesChunk9 : List (Option PrefixRule) :=
  [R "JF" "JAPAN",
   R "JG" "JAPAN",
   R "JH" "JAPAN",
   R "JI" "JAPAN",
   R "JJ" "JAPAN",
   R "JK" "JAPAN",
   R "JL" "JAPAN",
   R "JM" "JAPAN",
   R "JN" "JAPAN",
   R "JO" "JAPAN"]

def rulesChunk10 : List (Option PrefixRule) :=
  [R "HL" "KOREA_S",
   R "DS" "KOREA_S",
   R "DT" "KOREA_S",
   R "BY" "CHINA",
   R "BA" "CHINA",
   R "BD" "CHINA",
   R "BG" "CHINA",
   R "BH" "CHINA",
   R "BI" "CHINA",
   R "B" "CHINA"]

def rulesChunk11 : List (Option PrefixRule) :=
  [R "BV" "TAIWAN",
   R "VR" "HONG_KONG",
   R "XX9" "MACAU",
   R "DU" "PHILIPPINES",
   R "4I" "PHILIPPINES",
   R "HS" "THAILAND",
   R "E2" "THAILAND",
   R "3W" "VIETNAM",
   R "XV" "VIETNAM",
   R "XU" "CAMBODIA"]

def rulesChunk12 : List (Option PrefixRule) :=
  [R "XW" "LAOS",
   R "9M2" "MALAYSIA_W",
   R "9M4" "MALAYSIA_W",
   R "9M6" "MALAYSIA_E",
   R "9M8" "MALAYSIA_E",
   R "9V" "SINGAPORE",
   R "VU" "INDIA",
   R "VU2" "INDIA",
   R "VU3" "INDIA",
   R "4S" "SRI_LANKA"]

def rulesChunk13 : List (Option PrefixRule) :=
  [R "VK0H" "VK0_HEARD",
   R "VK0M" "VK0_MACQ",
   R "VK9X" "VK9_CHRISTMAS",
   R "VK9C" "VK9_COCOS",
   R "VK9L" "VK9_LORD_HOWE",
   R "VK9N" "VK9_NORFOLK",
   R "VK" "VK_MAIN",
   R "ZL7" "ZL7_CHATHAM",
   R "ZL8" "ZL8_KERMADEC",
   R "ZL9" "ZL9_AUCKLAND"]

def rulesChunk14 : List (Option PrefixRule) :=
  [R "ZL" "ZL_MAIN",
   R "3D2" "FIJI",
   R "KH8" "AMERICAN_SAMOA",
   R "5W" "SAMOA",
   R "A3" "TONGA",
   R "ZS" "SOUTH_AFRICA",
   R "V5" "NAMIBIA",
   R "A2" "BOTSWANA",
   R "Z2" "ZIMBABWE",
   R "D2" "ANGOLA"]

def rulesChunk15 : List (Option PrefixRule) :=
  [R "5Z" "KENYA",
   R "5H" "TANZANIA",
   R "ET" "ETHIOPIA",
   R "5R" "MADAGASCAR",
   R "LU" "ARGENTINA",
   R "LW" "ARGENTINA",
   R "PP" "BRAZIL",
   R "PQ" "BRAZIL",
   R "PR" "BRAZIL",
   R "PS" "BRAZIL"]

def rulesChunk16 : List (Option PrefixRule) :=
  [R "PT" "BRAZIL",
   R "PU" "BRAZIL",
   R "CE" "CHILE",
   R "CE0Y" "GALAPAGOS",
   R "HC" "ECUADOR",
   R "HC8" "GALAPAGOS",
   R "HK" "COLOMBIA",
   R "OA" "PERU",
   R "OA0" "PERU",
   R "TG" "GUATEMALA"]

def rulesChunk17 : List (Option PrefixRule) :=
  [R "HR" "HONDURAS",
   R "YS" "EL_SALVADOR",
   R "YN" "NICARAGUA",
   R "TI" "COSTA_RICA",
   R "HP" "PANAMA",
   R "CM" "CUBA",
   R "CO" "CUBA",
   R "T4" "CUBA",
   R "HI" "DOMINICAN",
   R "HH" "HAITI"]

def rulesChunk18 : List (Option PrefixRule) :=
  [R "Y2" "E_GERMANY",
   R "DM" "E_GERMANY",
   R "DA1" "E_GERMANY",
   R "DL2" "W_GERMANY",
   R "OK3" "CZECHOSLOVAKIA",
   R "OM8" "CZECHOSLOVAKIA",
   R "YU" "YUGOSLAVIA",
   R "UC" "USSR",
   R "UA3" "USSR"]

/-- Embeds `BUILTIN_PREFIX_RULES`, in source order (chunked concatenation preserves the
source order).  The `CT3` entry mirrors the conditional expression
`PrefixRule("CT3", "MADEIRA") if "MADEIRA" in DXCC_ENTITIES else None`. -/
def BUILTIN_PREFIX_RULES : List (Option PrefixRule) :=
  rulesChunk0 ++ rulesChunk1 ++ rulesChunk2 ++ rulesChunk3 ++ rulesChunk4 ++ rulesChunk5 ++ rulesChunk6 ++ rulesChunk7 ++ rulesChunk8 ++ rulesChunk9 ++ rulesChunk10 ++ rulesChunk11 ++ rulesChunk12 ++ rulesChunk13 ++ rulesChunk14 ++ rulesChunk15 ++ rulesChunk16 ++ rulesChunk17 ++ rulesChunk18

/-- Embeds `DXCC_PREFIX_RULES = [r for r in BUILTIN_PREFIX_RULES if r is not None]`. -/
def DXCC_PREFIX_RULES : List PrefixRule :=
  BUILTIN_PREFIX_RULES.filterMap id

/-! ### `app/dxcc_prefixes.py`: lookup helpers -/

/-- Embeds `normalize_call`: `(call or "").strip().upper()`. -/
def normalize_call (call : String) : String :=
  upperStr (stripStr call)

/-- The scan inside `lookup_entity_id_from_call`: first rule (in list order) whose
prefix the normalized call starts with.  The rule list is a parameter because the
source reads the module global `DXCC_PREFIX_RULES`, which `load_extended_data` may
replace. -/
def first_matching_rule (rules : List PrefixRule) (call : String) : Option PrefixRule :=
  let c := normalize_call call
  if c = "" then none
  else rules.find? (fun rule => startsWithStr c rule.pfx)

/-- Embeds `lookup_entity_id_from_call`: normalize, return `None` for a falsy call, else
the `entity_id` of the first rule in `rules` whose prefix matches. -/
def lookup_entity_id_from_call (rules : List PrefixRule) (call : String) : Option String :=
  (first_matching_rule rules call).map (fun rule => rule.entity_id)

/-- Embeds `lookup_entity_from_call`: `(DXCCEntity, entity_name)` or `None` if unknown.
`if not eid` in the source also treats the empty id as unknown. -/
def lookup_entity_from_call (entities : List (String × DXCCEntity))
    (rules : List PrefixRule) (call : String) : Option (DXCCEntity × String) :=
  match lookup_entity_id_from_call rules call with
  | none => none
  | some eid =>
    if eid = "" then none
    else
      match dictGet entities eid with
      | none => none
      | some ent => some (ent, ent.name)

/-! ### `app/dxcc_prefixes.py`: `load_extended_data` -/

/-- Outcome of `_load_json_if_exists`: the file is absent (`None` returned),
present but malformed (`json.load` raises), or parsed to a value. -/
inductive JsonLoad (α : Type) where
  | missing : JsonLoad α
  | malformed : JsonLoad α
  | parsed : α → JsonLoad α
deriving DecidableEq

/-- One entry of `dxcc_entities.json`: `e["id"]`, `e["name"]`, `e.get("active", True)`. -/
structure EntityJson where
  id : String
  name : String
  active : Option Bool
deriving DecidableEq

/-- One entry of `dxcc_prefixes.json`: `r["prefix"]`, `r["entity_id"]`. -/
structure PrefixJson where
  pfx : String
  entity_id : String
deriving DecidableEq

/-- The in-memory module state: the two globals `DXCC_ENTITIES` and
`DXCC_PREFIX_RULES`. -/
structure DirState where
  entities : List (String × DXCCEntity)
  rules : List PrefixRule
deriving DecidableEq

/-- The entity table built by the entities branch of `load_extended_data`
(`new_entities[e["id"]] = DXCCEntity(...)`; source ids are distinct, so dict
insertion is embedded as an append in iteration order). -/
def build_entities (l : List EntityJson) : List (String × DXCCEntity) :=
  l.map (fun e => (e.id, ⟨e.id, e.name, e.active.getD true⟩))

/-- The rule list built by the prefixes branch of `load_extended_data`
(`PrefixRule(prefix=r["prefix"].upper(), entity_id=r["entity_id"])`). -/
def build_rules (l : List PrefixJson) : List PrefixRule :=
  l.map (fun r => ⟨upperStr r.pfx, r.entity_id⟩)

/-- Stable insertion into a descending-length-sorted rule list: walk past rules with
strictly longer prefixes, insert before the first rule whose prefix is not longer. -/
def insertRuleDesc (r : PrefixRule) : List PrefixRule → List PrefixRule
  | [] => [r]
  | x :: xs =>
    if r.pfx.data.length < x.pfx.data.length then x :: insertRuleDesc r xs
    else r :: x :: xs

/-- Embeds `rules.sort(key=lambda pr: len(pr.prefix), reverse=True)` — Python's stable sort
by descending prefix length, embedded as a stable insertion sort. -/
def sortRulesDesc : List PrefixRule → List PrefixRule
  | [] => []
  | x :: xs => insertRuleDesc x (sortRulesDesc xs)

/-- Embeds `load_extended_data`, as a state transformer on the module globals.  The two
file reads are parameters (`JsonLoad` outcomes).  The returned `Bool` is `true`
when the Python call raises (malformed JSON); the returned `DirState` is the value
of the globals when the call returns or when the exception propagates.  The
`if entities_data:` / `if prefixes_data:` truthiness checks skip the swap for an
empty parsed list. -/
def load_extended_data (st : DirState)
    (entData : JsonLoad (List EntityJson))
    (pfxData : JsonLoad (List PrefixJson)) : DirState × Bool :=
  match entData with
  | .malformed => (st, true)
  | entOk =>
    let st1 : DirState :=
      match entOk with
      | .parsed l => if l = [] then st else { st with entities := build_entities l }
      | _ => st
    match pfxData with
    | .malformed => (st1, true)
    | .missing => (st1, false)
    | .parsed l =>
      if l = [] then (st1, false)
      else ({ st1 with rules := sortRulesDesc (build_rules l) }, false)

/-! ### Spec-modelled resolver tier machinery

`app/database.py` does `from app.dxcc_prefixes import entity_for_callsign` and calls
`dxcc_prefixes.resolve_callsign` / `dxcc_prefixes.prefix_for_callsign`, but the
`dxcc_prefixes.py` in the tree defines none of these.  They are modelled from the
specification (§4.2): a detailed (letter-prefix) tier is scanned in full first with
longest-first/first-match-wins logic, then a coarse (numeric-ID) tier; the first
structural match is authoritative. -/

/-- Modelled from the spec: the two-tier rule scan behind the missing resolver
entry points — "iterate tier 1 (detailed) rules; ... If no tier-1 rule matches,
repeat over tier 2 (coarse) rules with the same longest-first, first-match-wins
logic."  Each tier is scanned with the same first-match scan the in-tree
`lookup_entity_id_from_call` uses. -/
def resolve_rule_two_tier (detailed coarse : List PrefixRule) (call : String) :
    Option PrefixRule :=
  match first_matching_rule detailed call with
  | some r => some r
  | none => first_matching_rule coarse call

/-- Modelled from the spec: entity-id result of the two-tier resolution. -/
def resolve_entity_two_tier (detailed coarse : List PrefixRule) (call : String) :
    Option String :=
  (resolve_rule_two_tier detailed coarse call).map (fun rule => rule.entity_id)

/-- The directory the modelled resolver reads: entity table plus the two rule
tiers. -/
structure ResolveEnv where
  entities : List (String × DXCCEntity)
  detailed : List PrefixRule
  coarse : List PrefixRule

/-- Modelled from the spec: `resolve_callsign` (called by
`database.resolve_prefix_and_country` as `prefix, country, active =
dxcc_prefixes.resolve_callsign(call_worked)` but absent from the tree) — returns
the matched rule's prefix string, the entity display name and the active flag,
with falsy prefix/country when unresolved. -/
def resolve_callsign (env : ResolveEnv) (call : String) :
    Option String × Option String × Bool :=
  match resolve_rule_two_tier env.detailed env.coarse call with
  | none => (none, none, false)
  | some r =>
    match dictGet env.entities r.entity_id with
    | none => (none, none, false)
    | some ent => (some r.pfx, some ent.name, ent.active)

/-- Modelled from the spec: `entity_for_callsign` (called by
`database.get_dxcc_need_list` and `database.get_dxcc_dashboard` as
`eid, name, active = entity_for_callsign(call)` but absent from the tree) —
`entity_for(call) -> (entity_id|none, display_name, is_active)`, returning
`(none, "Unknown", false)` when unresolved. -/
def entity_for_callsign (env : ResolveEnv) (call : String) :
    Option String × String × Bool :=
  match resolve_rule_two_tier env.detailed env.coarse call with
  | none => (none, "Unknown", false)
  | some r =>
    match dictGet env.entities r.entity_id with
    | none => (none, "Unknown", false)
    | some ent => (some r.entity_id, ent.name, ent.active)

/-! ### `app/database.py` -/

/-- Embeds `resolve_prefix_and_country(call_worked, fallback_country=None)`:
empty (falsy) call short-circuits; otherwise `resolve_callsign` is consulted and a
truthy country yields `(prefix, country, not active)`; an unresolved call yields
`(None, fallback_country or "Unknown", False)`. -/
def resolve_prefix_and_country (env : ResolveEnv) (call_worked : String)
    (fallback_country : Option String) : Option String × String × Bool :=
  if call_worked = "" then (none, pyOrUnknown fallback_country, false)
  else
    let res := resolve_callsign env call_worked
    match res.2.1 with
    | some country =>
      if country = "" then (none, pyOrUnknown fallback_country, false)
      else (res.1, country, !res.2.2)
    | none => (none, pyOrUnknown fallback_country, false)

/-- One row of the `qsos` table (`callsign` is the owning user). -/
structure DBRow where
  callsign : String
  country : String
  pfx : Option String
  call_worked : String
  qso_date : String
  qsl_status : String
  band : String
deriving DecidableEq

/-- Embeds `qso_exists(user, call_worked, date, band)`: `SELECT qsl_status FROM qsos WHERE
callsign = ? AND call_worked = ? AND qso_date = ? AND band = ?` with `fetchone` —
the status of the first matching row, else `None`. -/
def qso_exists (db : List DBRow) (user call_worked date band : String) :
    Option String :=
  (db.find? (fun r =>
      r.callsign = user ∧ r.call_worked = call_worked ∧
      r.qso_date = date ∧ r.band = band)).map (fun r => r.qsl_status)

/-- Embeds `add_qso(user, country, call_worked, date, status, band)`: enrich the country
via `resolve_prefix_and_country` (overriding the caller's country when truthy) and
`INSERT` the new row (append). -/
def add_qso (env : ResolveEnv) (db : List DBRow)
    (user country call_worked date status band : String) : List DBRow :=
  let res := resolve_prefix_and_country env call_worked (some country)
  let country1 := if res.2.1 = "" then country else res.2.1
  db ++ [⟨user, country1, res.1, call_worked, date, status, band⟩]

/-- The `SELECT call_worked, qsl_status, band FROM qsos WHERE callsign = ? [AND band
IN (...)]` fetch shared by `get_dxcc_dashboard` and `get_dxcc_need_list`; a falsy
`bands` (empty list) omits the band restriction. -/
def fetch_user_rows (db : List DBRow) (user : String) (bands : List String) :
    List DBRow :=
  db.filter (fun r => r.callsign = user ∧ (bands = [] ∨ r.band ∈ bands))

/-- One fetched row passes the per-QSO filter of the need-list scan for entity
`eid`: `entity_for_callsign` resolves to a truthy `eid` and the entity survives
`if not include_deleted and not active: continue`. -/
def need_row_hits (env : ResolveEnv) (include_deleted : Bool) (r : DBRow)
    (eid : String) : Bool :=
  match entity_for_callsign env r.call_worked with
  | (some e, _, active) => e = eid ∧ e ≠ "" ∧ (include_deleted ∨ active)
  | (none, _, _) => false

/-- The `(eid, band)` pair one scanned row contributes (`None` when the row is
dropped by `if not eid: continue` or the `include_deleted` filter). -/
def need_row_out (env : ResolveEnv) (include_deleted : Bool) (r : DBRow) :
    Option (String × String) :=
  match entity_for_callsign env r.call_worked with
  | (some e, _, active) =>
    if e ≠ "" ∧ (include_deleted ∨ active) then some (e, r.band) else none
  | (none, _, _) => none

/-- Embeds `worked` of `get_dxcc_need_list`: the `(eid, band)` pairs added by the scan
(a Python set consumed only through membership, so kept as a list). -/
def need_worked_pairs (env : ResolveEnv) (include_deleted : Bool)
    (rows : List DBRow) : List (String × String) :=
  rows.filterMap (need_row_out env include_deleted)

/-- Embeds `confirmed` of `get_dxcc_need_list`: the subset of scanned pairs whose status
is in `("Confirmed", "LoTW", "QSL")`. -/
def need_confirmed_pairs (env : ResolveEnv) (include_deleted : Bool)
    (rows : List DBRow) : List (String × String) :=
  (rows.filter
      (fun r => r.qsl_status ∈ (["Confirmed", "LoTW", "QSL"] : List String))).filterMap
    (need_row_out env include_deleted)

/-- Embeds `get_dxcc_need_list(user, bands, include_deleted)`: fetch the user's rows
(band-restricted when `bands` is truthy), build the per-band worked/confirmed pair
sets, then for each directory entity (in insertion order) surviving the
`include_deleted` filter and each tracked band (in list order), emit
`(eid, name, band)` when the pair is worked but not confirmed. -/
def get_dxcc_need_list (env : ResolveEnv) (db : List DBRow) (user : String)
    (bands : List String) (include_deleted : Bool) :
    List (String × String × String) :=
  let rows := fetch_user_rows db user bands
  let worked := need_worked_pairs env include_deleted rows
  let confirmed := need_confirmed_pairs env include_deleted rows
  env.entities.flatMap (fun kv =>
    if !include_deleted ∧ !kv.2.active then []
    else
      bands.filterMap (fun band =>
        if (kv.1, band) ∈ confirmed then none
        else if (kv.1, band) ∈ worked then some (kv.1, kv.2.name, band)
        else none))

/-! ### `app/main.py` -/

/-- Embeds `dxcc_from_call(call)`: `(entity_id, entity_name, active_flag)` from the
in-tree single-tier `lookup_entity_from_call`, or `(None, None, None)` if
unknown. -/
def dxcc_from_call (entities : List (String × DXCCEntity))
    (rules : List PrefixRule) (call : String) :
    Option String × Option String × Option Bool :=
  match lookup_entity_from_call entities rules call with
  | none => (none, none, none)
  | some (ent, name) => (some ent.id, some name, some ent.active)

/-! ### `app/adif_import.py`: parser

A record is modelled after the regex extraction stage: the association list holds
the normalized tag (`m.group(1).strip().upper()`) and the extracted payload
(`m.group(3)[:length].strip()`); a repeated tag overwrites (`fields[tag] = value`),
so lookup takes the LAST occurrence. -/

/-- Embeds `fields.get(tag, "")` under overwrite-on-reparse semantics: last occurrence of
the tag wins. -/
def fieldGet (fields : List (String × String)) (tag : String) : String :=
  ((fields.reverse.find? (fun kv => kv.1 = tag)).map (fun kv => kv.2)).getD ""

/-- Embeds `SUPPORTED_BANDS` from `app/adif_import.py`. -/
def SUPPORTED_BANDS : List String :=
  ["160m", "80m", "60m", "40m", "30m", "20m", "17m", "15m", "12m", "10m", "6m"]

/-- Decimal value of a digit list (inputs are all-digit by construction). -/
def natOfDigits (l : List Char) : Nat :=
  l.foldl (fun a c => a * 10 + (c.toNat - 48)) 0

/-- Gregorian leap year, as `datetime` uses. -/
def isLeap (y : Nat) : Bool := (y % 4 = 0 ∧ y % 100 ≠ 0) ∨ y % 400 = 0

/-- Days in a month, as `datetime` validates. -/
def daysInMonth (y m : Nat) : Nat :=
  if m = 2 then (if isLeap y then 29 else 28)
  else if m ∈ ([4, 6, 9, 11] : List Nat) then 30 else 31

/-- True when `datetime.strptime(raw, "%Y%m%d")` succeeds: year in `MINYEAR..9999`, month
`1..12`, day in range for the month. -/
def valid_ymd (y m d : Nat) : Bool :=
  1 ≤ y ∧ 1 ≤ m ∧ m ≤ 12 ∧ 1 ≤ d ∧ d ≤ daysInMonth y m

/-- The date branch of `parse_adif_file`: an 8-character all-digit value is parsed
with `strptime("%Y%m%d")` and reformatted as `"%Y-%m-%d"` (embedded as dash
insertion, which is the round trip for the digits already present); a `strptime`
failure (invalid calendar date) and a failed shape check both pass the raw value
through.  (Python's `str.isdigit` also accepts non-ASCII digits; those make
`strptime` raise, so the raw value passes through on both sides.) -/
def date_canon (raw : String) : String :=
  if raw.data.length = 8 ∧ raw.data.all Char.isDigit then
    let y := natOfDigits (raw.data.take 4)
    let m := natOfDigits ((raw.data.drop 4).take 2)
    let d := natOfDigits (raw.data.drop 6)
    if valid_ymd y m d then
      ⟨raw.data.take 4⟩ ++ "-" ++ ⟨(raw.data.drop 4).take 2⟩ ++ "-" ++ ⟨raw.data.drop 6⟩
    else raw
  else raw

/-- The band branch of `parse_adif_file`: lowercase+strip, require an `m`/`cm`
suffix, and accept only an exact (case-folded) member of `SUPPORTED_BANDS`,
returning the canonical casing; anything else becomes `""`. -/
def band_norm (raw : String) : String :=
  let rb := stripStr (lowerStr raw)
  if endsWithStr rb "m" ∨ endsWithStr rb "cm" then
    match SUPPORTED_BANDS.find? (fun b => rb = lowerStr b) with
    | some b => b
    | none => ""
  else ""

/-- The QSL branch of `parse_adif_file`: any of `QSL_RCVD`, `EQSL_QSL_RCVD`,
`LOTW_QSL_RCVD` (uppercased) in `("Y", "V")` gives `"Confirmed"`; else `QSL_SENT`
in `("Y", "Q", "R")` gives `"Requested"`; else `"Needed"`. -/
def derive_status (fields : List (String × String)) : String :=
  let qsl_rcvd := upperStr (fieldGet fields "QSL_RCVD")
  let qsl_sent := upperStr (fieldGet fields "QSL_SENT")
  let eqsl_rcvd := upperStr (fieldGet fields "EQSL_QSL_RCVD")
  let lotw_rcvd := upperStr (fieldGet fields "LOTW_QSL_RCVD")
  if qsl_rcvd ∈ (["Y", "V"] : List String) ∨ eqsl_rcvd ∈ (["Y", "V"] : List String) ∨
      lotw_rcvd ∈ (["Y", "V"] : List String) then "Confirmed"
  else if qsl_sent ∈ (["Y", "Q", "R"] : List String) then "Requested"
  else "Needed"

/-- One parser-emitted candidate `(country, call, date, status, band)`. -/
structure Candidate where
  country : String
  call : String
  date : String
  status : String
  band : String
deriving DecidableEq

/-- The per-record body of `parse_adif_file`: a record without a truthy `CALL` is
dropped (`continue`); otherwise emit the candidate tuple. -/
def parse_record (fields : List (String × String)) : Option Candidate :=
  let call := upperStr (stripStr (fieldGet fields "CALL"))
  if call = "" then none
  else
    some ⟨stripStr (fieldGet fields "COUNTRY"), call,
          date_canon (fieldGet fields "QSO_DATE"), derive_status fields,
          band_norm (fieldGet fields "BAND")⟩

/-- Embeds `parse_adif_file`: one candidate per record with a non-empty call, in file
order (a whitespace-only record has no fields, hence no call, and is dropped by
the same path as the source's `if not rec: continue`). -/
def parse_adif_file (recs : List (List (String × String))) : List Candidate :=
  recs.filterMap parse_record

/-! ### `app/adif_import.py`: import pipeline -/

/-- Outcome of the import loop: counters, the final table, and the emitted
progress percentages in emission order. -/
structure ImportOut where
  added : Nat
  skipped : Nat
  db : List DBRow
  progress : List Nat
deriving DecidableEq

/-- The `for i, (...) in enumerate(records, start=1)` loop of `import_adif`.
`cancel i` is the value of `cancel_flag["value"]` as polled at record `i` (a
missing flag is `fun _ => false`); a set flag breaks out.  A candidate with a
falsy date is dropped uncounted.  `if existing:` treats both `None` and an empty
stored status as absent.  Insertion appends, and the progress callback — invoked
only on the added path, after `add_qso` — reports `int((i / total) * 100)`,
embedded as `i * 100 / total` (both are monotone in `i`). -/
def import_go (env : ResolveEnv) (user : String) (cancel : Nat → Bool)
    (total : Nat) : List Candidate → Nat → List DBRow → ImportOut
  | [], _, db => ⟨0, 0, db, []⟩
  | c :: rest, i, db =>
    if cancel i then ⟨0, 0, db, []⟩
    else if c.date = "" then import_go env user cancel total rest (i + 1) db
    else if (qso_exists db user c.call c.date c.band).getD "" ≠ "" then
      let out := import_go env user cancel total rest (i + 1) db
      { out with skipped := out.skipped + 1 }
    else
      let out := import_go env user cancel total rest (i + 1)
        (add_qso env db user c.country c.call c.date c.status c.band)
      { out with added := out.added + 1, progress := i * 100 / total :: out.progress }

/-- The `{"added": ..., "skipped": ..., "total": ...}` summary. -/
structure ImportResult where
  added : Nat
  skipped : Nat
  total : Nat
deriving DecidableEq

/-- Embeds `import_adif(path, user, ...)` over the already-parsed candidate list
(`records = parse_adif_file(path)`), an initial table state, and a cancellation
flag trace; returns the summary, the final table, and the progress trace. -/
def import_adif (env : ResolveEnv) (user : String) (cancel : Nat → Bool)
    (records : List Candidate) (db : List DBRow) :
    ImportResult × List DBRow × List Nat :=
  let total := records.length
  let out := import_go env user cancel total records 1 db
  (⟨out.added, out.skipped, total⟩, out.db, out.progress)

/-- An absent `cancel_flag` (`cancel_flag=None`): never cancelled. -/
def noCancel : Nat → Bool := fun _ => false

/-- The `if existing:` test of `import_adif` holds for a candidate: the table has
a row under the dedup key `(user, call, date, band)` whose stored status is
truthy (non-empty). -/
def truthy_exists (db : List DBRow) (user : String) (c : Candidate) : Prop :=
  (qso_exists db user c.call c.date c.band).getD "" ≠ ""

/-! ## Claim C1 — longest-prefix-wins and the sort invariant -/

/-- The spec's sort invariant, from its words: the rule list is sorted by
descending prefix length (each prefix at least as long as the next). -/
def rules_sorted_desc : List PrefixRule → Bool
  | [] => true
  | [_] => true
  | a :: b :: rest =>
    decide (b.pfx.data.length ≤ a.pfx.data.length) && rules_sorted_desc (b :: rest)

/-- Lexicographic strict order on character lists (the order Python string
comparison uses), written recursively so it evaluates in the kernel. -/
def charsLt : List Char → List Char → Bool
  | [], [] => false
  | [], _ :: _ => true
  | _ :: _, [] => false
  | a :: as, b :: bs =>
    if a.toNat < b.toNat then true
    else if a.toNat = b.toNat then charsLt as bs
    else false

/-- Lexicographic strict order on strings. -/
def strLt (a b : String) : Bool := charsLt a.data b.data

/-- The spec's need-list output order, from its words: "sorted by entity id then
band" (non-strictly, lexicographically). -/
def sorted_by_entity_then_band : List (String × String × String) → Bool
  | [] => true
  | [_] => true
  | a :: b :: rest =>
    (strLt a.1 b.1 || (decide (a.1 = b.1) &&
        (strLt a.2.2 b.2.2 || decide (a.2.2 = b.2.2)))) &&
      sorted_by_entity_then_band (b :: rest)

/-- C1: refuted on the shipped rule list.  The module and the `lookup` docstring
promise longest-prefix-wins, but `BUILTIN_PREFIX_RULES` is not sorted by
descending prefix length and the scan takes the first structural match: `"HC8A"`
starts with both `"HC"` (ECUADOR) and the longer `"HC8"` (GALAPAGOS), both rules
are in the list, yet lookup returns ECUADOR; the list is also not
descending-length ordered. -/
theorem c1_builtin_lookup_breaks_longest_first :
    lookup_entity_id_from_call DXCC_PREFIX_RULES "HC8A" = some "ECUADOR" ∧
    (⟨"HC", "ECUADOR"⟩ : PrefixRule) ∈ DXCC_PREFIX_RULES ∧
    (⟨"HC8", "GALAPAGOS"⟩ : PrefixRule) ∈ DXCC_PREFIX_RULES ∧
    startsWithStr (normalize_call "HC8A") "HC" = true ∧
    startsWithStr (normalize_call "HC8A") "HC8" = true ∧
    ("HC" : String).data.length < ("HC8" : String).data.length ∧
    rules_sorted_desc DXCC_PREFIX_RULES = false := by
  decide

/-! ## Claim C6 — QSL status precedence -/

/-- C6: confirmed.  The derived status is `"Confirmed"` exactly when one of the
three received flags (uppercased) is `Y` or `V`; `"Requested"` exactly when no
received flag confirms and `QSL_SENT` is `Y`, `Q` or `R`; `"Needed"` otherwise —
independent of the order of fields in the record. -/
theorem c6_qsl_status_precedence (fields : List (String × String)) :
    (derive_status fields = "Confirmed" ↔
      (upperStr (fieldGet fields "QSL_RCVD") ∈ (["Y", "V"] : List String) ∨
       upperStr (fieldGet fields "EQSL_QSL_RCVD") ∈ (["Y", "V"] : List String) ∨
       upperStr (fieldGet fields "LOTW_QSL_RCVD") ∈ (["Y", "V"] : List String))) ∧
    (derive_status fields = "Requested" ↔
      (¬ (upperStr (fieldGet fields "QSL_RCVD") ∈ (["Y", "V"] : List String) ∨
          upperStr (fieldGet fields "EQSL_QSL_RCVD") ∈ (["Y", "V"] : List String) ∨
          upperStr (fieldGet fields "LOTW_QSL_RCVD") ∈ (["Y", "V"] : List String)) ∧
       upperStr (fieldGet fields "QSL_SENT") ∈ (["Y", "Q", "R"] : List String))) ∧
    (derive_status fields = "Needed" ↔
      (¬ (upperStr (fieldGet fields "QSL_RCVD") ∈ (["Y", "V"] : List String) ∨
          upperStr (fieldGet fields "EQSL_QSL_RCVD") ∈ (["Y", "V"] : List String) ∨
          upperStr (fieldGet fields "LOTW_QSL_RCVD") ∈ (["Y", "V"] : List String)) ∧
       ¬ upperStr (fieldGet fields "QSL_SENT") ∈ (["Y", "Q", "R"] : List String))) := by
  simp only [derive_status]
  split_ifs with h1 h2 <;> simp_all

/-! ## Claim C7 — ADIF date canonicalization -/

/-- C7: refuted as stated.  `"99999999"` consists of exactly 8 decimal digits,
yet it is passed through unchanged (month 99 makes `strptime` raise, and the
`except` branch keeps the raw value), so not every 8-digit value is converted to
dashed form. -/
theorem c7_counterexample_invalid_calendar_digits :
    date_canon "99999999" = "99999999" ∧
    ("99999999" : String).data.length = 8 ∧
    ("99999999" : String).data.all Char.isDigit = true ∧
    ("99999999" : String) ≠ "9999-99-99" := by
  decide

/-- C7 (amended): an 8-digit all-digit value that is a valid calendar date is
converted to dashed `YYYY-MM-DD` form; an 8-digit value that is not a valid
calendar date, and any value failing the 8-digit-numeric shape check, are passed
through unchanged. -/
theorem c7_date_canonicalization (raw : String) :
    (¬ (raw.data.length = 8 ∧ raw.data.all Char.isDigit = true) →
      date_canon raw = raw) ∧
    ((raw.data.length = 8 ∧ raw.data.all Char.isDigit = true ∧
      valid_ymd (natOfDigits (raw.data.take 4)) (natOfDigits ((raw.data.drop 4).take 2))
        (natOfDigits (raw.data.drop 6)) = true) →
      date_canon raw =
        ⟨raw.data.take 4⟩ ++ "-" ++ ⟨(raw.data.drop 4).take 2⟩ ++ "-" ++ ⟨raw.data.drop 6⟩) ∧
    ((raw.data.length = 8 ∧ raw.data.all Char.isDigit = true ∧
      valid_ymd (natOfDigits (raw.data.take 4)) (natOfDigits ((raw.data.drop 4).take 2))
        (natOfDigits (raw.data.drop 6)) = false) →
      date_canon raw = raw) := by
  refine ⟨fun h => ?_, fun h => ?_, fun h => ?_⟩ <;> unfold date_canon
  · rw [if_neg]
    simpa using h
  · rw [if_pos ⟨h.1, h.2.1⟩, if_pos h.2.2]
  · rw [if_pos ⟨h.1, h.2.1⟩, if_neg]
    simp [h.2.2]

/-- C7 witness: the amended theorem applied at `"202306"` (shape-check failure:
pass-through) and `"20230615"` (valid date: canonicalized). -/
theorem c7_date_canonicalization_witness :
    date_canon "202306" = "202306" ∧ date_canon "20230615" = "2023-06-15" :=
  ⟨(c7_date_canonicalization "202306").1 (by decide),
   ((c7_date_canonicalization "20230615").2.1 (by decide)).trans (by decide)⟩

/-! ## Claim C2 — tier fallback (spec-modelled resolver) -/

/-- C2: confirmed on the spec-modelled two-tier resolver.  A detailed-tier match
is returned no matter what the coarse tier holds (so the coarse tier is never
consulted, even when it would match more specifically), and when the detailed
tier has no match the result is exactly the coarse-tier lookup. -/
theorem c2_tier_fallback (detailed coarse : List PrefixRule) (call : String) :
    (∀ e, lookup_entity_id_from_call detailed call = some e →
      ∀ coarse2, resolve_entity_two_tier detailed coarse2 call = some e) ∧
    (lookup_entity_id_from_call detailed call = none →
      resolve_entity_two_tier detailed coarse call = lookup_entity_id_from_call coarse call) := by
  unfold lookup_entity_id_from_call resolve_entity_two_tier resolve_rule_two_tier
  cases h : first_matching_rule detailed call <;> simp

/-- C2 witness: with detailed rule `K → USA` and coarse rule `K1 → HAWAII`, call
`K1AA` resolves to USA (detailed wins despite the longer coarse match); with an
empty detailed tier it falls back to the coarse result. -/
theorem c2_tier_fallback_witness :
    resolve_entity_two_tier [⟨"K", "USA"⟩] [⟨"K1", "HAWAII"⟩] "K1AA" = some "USA" ∧
    resolve_entity_two_tier [] [⟨"K", "USA"⟩] "K1AA" =
      lookup_entity_id_from_call [⟨"K", "USA"⟩] "K1AA" :=
  ⟨(c2_tier_fallback [⟨"K", "USA"⟩] [] "K1AA").1 "USA" (by decide) [⟨"K1", "HAWAII"⟩],
   (c2_tier_fallback [] [⟨"K", "USA"⟩] "K1AA").2 (by decide)⟩

/-! ## Claim C3 — unresolved callsigns degrade, not raise -/

/-- C3: refuted as stated for `main.dxcc_from_call`, whose unknown-call result is
`(None, None, None)`, not `(None, "Unknown", False)` — shown on the empty call
and on a call matching no built-in rule. -/
theorem c3_counterexample_dxcc_from_call_unknown :
    dxcc_from_call DXCC_ENTITIES DXCC_PREFIX_RULES "" = (none, none, none) ∧
    dxcc_from_call DXCC_ENTITIES DXCC_PREFIX_RULES "ZZ9ZZZ999" = (none, none, none) ∧
    ((none, none, none) : Option String × Option String × Option Bool) ≠
      (none, some "Unknown", some false) := by
  decide

/-- C3 (amended): for an empty, whitespace-only, or rule-less callsign,
`database.resolve_prefix_and_country` (with no fallback country) returns
`(None, "Unknown", False)`, while `main.dxcc_from_call` returns
`(None, None, None)`; both are total functions, so no exception is possible. -/
theorem c3_unresolved_degrades (env : ResolveEnv)
    (entities : List (String × DXCCEntity)) (rules : List PrefixRule) (call : String)
    (hd : first_matching_rule env.detailed call = none)
    (hc : first_matching_rule env.coarse call = none)
    (hr : first_matching_rule rules call = none) :
    resolve_prefix_and_country env call none = (none, "Unknown", false) ∧
    dxcc_from_call entities rules call = (none, none, none) := by
  constructor
  · unfold resolve_prefix_and_country
    split_ifs with h
    · rfl
    · unfold resolve_callsign resolve_rule_two_tier
      rw [hd, hc]
      rfl
  · unfold dxcc_from_call lookup_entity_from_call lookup_entity_id_from_call
    rw [hr]
    rfl

/-- C3 witness: the amended theorem applied to the no-rule call `"ZZ9ZZZ999"` and
to the whitespace-only call `" "`, over the shipped directory (empty coarse
tier). -/
theorem c3_unresolved_degrades_witness :
    (resolve_prefix_and_country ⟨DXCC_ENTITIES, DXCC_PREFIX_RULES, []⟩ "ZZ9ZZZ999" none =
        (none, "Unknown", false) ∧
      dxcc_from_call DXCC_ENTITIES DXCC_PREFIX_RULES "ZZ9ZZZ999" = (none, none, none)) ∧
    (resolve_prefix_and_country ⟨DXCC_ENTITIES, DXCC_PREFIX_RULES, []⟩ " " none =
        (none, "Unknown", false) ∧
      dxcc_from_call DXCC_ENTITIES DXCC_PREFIX_RULES " " = (none, none, none)) :=
  ⟨c3_unresolved_degrades ⟨DXCC_ENTITIES, DXCC_PREFIX_RULES, []⟩ DXCC_ENTITIES
      DXCC_PREFIX_RULES "ZZ9ZZZ999" (by decide) (by decide) (by decide),
   c3_unresolved_degrades ⟨DXCC_ENTITIES, DXCC_PREFIX_RULES, []⟩ DXCC_ENTITIES
      DXCC_PREFIX_RULES " " (by decide) (by decide) (by decide)⟩

/-! ## Claim C9 — atomicity of `load_extended_data` -/

/-- C9: refuted as stated.  With a previously good directory, a valid entities
file followed by a malformed prefixes file raises AFTER the entity table has
already been swapped: the error state mixes the new entity table with the old
prefix rules. -/
theorem c9_counterexample_mixed_state :
    load_extended_data
        ⟨[("OLD", ⟨"OLD", "Old Entity", true⟩)], [⟨"K", "OLD"⟩]⟩
        (JsonLoad.parsed [⟨"NEW", "New Entity", some true⟩]) JsonLoad.malformed =
      (⟨[("NEW", ⟨"NEW", "New Entity", true⟩)], [⟨"K", "OLD"⟩]⟩, true) ∧
    [("NEW", (⟨"NEW", "New Entity", true⟩ : DXCCEntity))] ≠
      [("OLD", (⟨"OLD", "Old Entity", true⟩ : DXCCEntity))] := by
  decide

/-- C9 (amended): each table individually is built in full and swapped
atomically — a failure in the entities phase leaves the whole directory
unchanged, a failure in the prefixes phase leaves the prefix table unchanged,
and the prefix table is only ever replaced by a completely built, sorted new
list — but a failure in the prefixes phase does NOT roll back an entities swap
that already happened, so the two tables together are not updated atomically. -/
theorem c9_load_failure_per_table (st : DirState)
    (entData : JsonLoad (List EntityJson)) (pfxData : JsonLoad (List PrefixJson)) :
    load_extended_data st JsonLoad.malformed pfxData = (st, true) ∧
    ((load_extended_data st entData JsonLoad.malformed).1.rules = st.rules ∧
      (load_extended_data st entData JsonLoad.malformed).2 = true) ∧
    ((load_extended_data st entData pfxData).1.rules = st.rules ∨
      ∃ l, pfxData = JsonLoad.parsed l ∧
        (load_extended_data st entData pfxData).1.rules =
          sortRulesDesc (build_rules l)) := by
  refine ⟨rfl, ?_, ?_⟩
  · cases entData <;> (simp [load_extended_data]; try (split <;> simp))
  · cases entData <;> cases pfxData <;>
      (simp [load_extended_data]; try (split <;> (simp; try (split <;> simp))))

/-! ## Claim C10 — dateless candidates count in `total` only -/

/-- C10: confirmed.  A candidate whose date is empty is counted in `total` but
contributes to neither `added` nor `skipped` and is never inserted, so
`added + skipped` is strictly below `total` with no duplicates and no
cancellation. -/
theorem c10_dateless_candidate_uncounted (env : ResolveEnv) (user : String)
    (db : List DBRow) (c : Candidate) (h : c.date = "") :
    import_adif env user noCancel [c] db = (⟨0, 0, 1⟩, db, []) ∧
    (import_adif env user noCancel [c] db).1.added +
        (import_adif env user noCancel [c] db).1.skipped <
      (import_adif env user noCancel [c] db).1.total := by
  have h1 : import_adif env user noCancel [c] db = (⟨0, 0, 1⟩, db, []) := by
    simp [import_adif, import_go, noCancel, h]
  exact ⟨h1, by rw [h1]; exact Nat.zero_lt_one⟩

/-- C10 witness: a concrete dateless candidate on an empty table. -/
theorem c10_dateless_candidate_uncounted_witness :
    import_adif ⟨[], [], []⟩ "n4lr" noCancel [⟨"", "K1AA", "", "Needed", ""⟩] [] =
      (⟨0, 0, 1⟩, [], []) :=
  (c10_dateless_candidate_uncounted ⟨[], [], []⟩ "n4lr" []
    ⟨"", "K1AA", "", "Needed", ""⟩ rfl).1

/-! ## Claim C8 — progress callbacks

Branch equations for `import_go`, used by the import-pipeline proofs. -/

/-- Behavior of `import_go` on the empty candidate list. -/
theorem import_go_nil (env : ResolveEnv) (user : String) (cancel : Nat → Bool)
    (total i : Nat) (db : List DBRow) :
    import_go env user cancel total [] i db = ⟨0, 0, db, []⟩ := rfl

/-- Behavior of `import_go` when the cancellation flag is set: break immediately. -/
theorem import_go_cancel (env : ResolveEnv) (user : String) (cancel : Nat → Bool)
    (total i : Nat) (db : List DBRow) (c : Candidate) (rest : List Candidate)
    (h : cancel i = true) :
    import_go env user cancel total (c :: rest) i db = ⟨0, 0, db, []⟩ := by
  simp [import_go, h]

/-- Behavior of `import_go` on a dateless candidate: drop it, uncounted. -/
theorem import_go_dateless (env : ResolveEnv) (user : String) (cancel : Nat → Bool)
    (total i : Nat) (db : List DBRow) (c : Candidate) (rest : List Candidate)
    (h : cancel i = false) (hd : c.date = "") :
    import_go env user cancel total (c :: rest) i db =
      import_go env user cancel total rest (i + 1) db := by
  simp [import_go, h, hd]

/-- Behavior of `import_go` on a candidate whose dedup key already has a row with a truthy
status: count it skipped; no insertion, no progress callback. -/
theorem import_go_skip (env : ResolveEnv) (user : String) (cancel : Nat → Bool)
    (total i : Nat) (db : List DBRow) (c : Candidate) (rest : List Candidate)
    (h : cancel i = false) (hd : c.date ≠ "")
    (he : (qso_exists db user c.call c.date c.band).getD "" ≠ "") :
    import_go env user cancel total (c :: rest) i db =
      { import_go env user cancel total rest (i + 1) db with
        skipped := (import_go env user cancel total rest (i + 1) db).skipped + 1 } := by
  simp [import_go, h, hd, he]

/-- Behavior of `import_go` on a fresh candidate: insert, count it added, emit progress. -/
theorem import_go_add (env : ResolveEnv) (user : String) (cancel : Nat → Bool)
    (total i : Nat) (db : List DBRow) (c : Candidate) (rest : List Candidate)
    (h : cancel i = false) (hd : c.date ≠ "")
    (he : ¬ (qso_exists db user c.call c.date c.band).getD "" ≠ "") :
    import_go env user cancel total (c :: rest) i db =
      { import_go env user cancel total rest (i + 1)
          (add_qso env db user c.country c.call c.date c.status c.band) with
        added := (import_go env user cancel total rest (i + 1)
          (add_qso env db user c.country c.call c.date c.status c.band)).added + 1,
        progress := i * 100 / total ::
          (import_go env user cancel total rest (i + 1)
            (add_qso env db user c.country c.call c.date c.status c.band)).progress } := by
  simp [import_go, h, hd, he]

/-- The progress trace of the import loop: non-decreasing (each entry is
`i * 100 / total` for the current 1-based index `i`, and `i` only grows), every
entry at least the percentage at the loop's entry index, and exactly one entry
per added record. -/
theorem import_go_progress_spec (env : ResolveEnv) (user : String)
    (cancel : Nat → Bool) (total : Nat) (l : List Candidate) :
    ∀ (i : Nat) (db : List DBRow),
      List.Chain' (· ≤ ·) (import_go env user cancel total l i db).progress ∧
      (∀ p ∈ (import_go env user cancel total l i db).progress,
        i * 100 / total ≤ p) ∧
      (import_go env user cancel total l i db).progress.length =
        (import_go env user cancel total l i db).added := by
  induction l with
  | nil => intro i db; simp [import_go_nil]
  | cons c rest ih =>
    intro i db
    have hstep : i * 100 / total ≤ (i + 1) * 100 / total :=
      Nat.div_le_div_right (Nat.mul_le_mul_right 100 (Nat.le_succ i))
    by_cases hcan : cancel i = true
    · simp [import_go_cancel env user cancel total i db c rest hcan]
    · rw [Bool.not_eq_true] at hcan
      by_cases hd : c.date = ""
      · rw [import_go_dateless env user cancel total i db c rest hcan hd]
        obtain ⟨h1, h2, h3⟩ := ih (i + 1) db
        exact ⟨h1, fun p hp => le_trans hstep (h2 p hp), h3⟩
      · by_cases he : (qso_exists db user c.call c.date c.band).getD "" ≠ ""
        · rw [import_go_skip env user cancel total i db c rest hcan hd he]
          obtain ⟨h1, h2, h3⟩ := ih (i + 1) db
          exact ⟨h1, fun p hp => le_trans hstep (h2 p hp), h3⟩
        · rw [import_go_add env user cancel total i db c rest hcan hd he]
          obtain ⟨h1, h2, h3⟩ :=
            ih (i + 1) (add_qso env db user c.country c.call c.date c.status c.band)
          refine ⟨List.chain'_cons'.mpr ⟨fun p hp => ?_, h1⟩,
            fun p hp => ?_, by simpa using h3⟩
          · exact le_trans hstep (h2 p (List.mem_of_mem_head? hp))
          · rcases List.mem_cons.mp hp with hp | hp
            · exact le_of_eq hp.symm
            · exact le_trans hstep (h2 p hp)

/-- C8 (amended): the progress callback is invoked only after each ADDED record
(skipped and dateless records emit nothing — one trace entry per added record),
and the emitted percentage sequence is monotonically non-decreasing. -/
theorem c8_progress_monotone_added_only (env : ResolveEnv) (user : String)
    (cancel : Nat → Bool) (records : List Candidate) (db : List DBRow) :
    List.Chain' (· ≤ ·) (import_adif env user cancel records db).2.2 ∧
    (import_adif env user cancel records db).2.2.length =
      (import_adif env user cancel records db).1.added := by
  obtain ⟨h1, _h2, h3⟩ :=
    import_go_progress_spec env user cancel records.length records 1 db
  exact ⟨h1, h3⟩

/-- C8: refuted as stated.  Processing a single record that is skipped as a
duplicate emits NO progress callback at all (the callback sits on the added
path only), contradicting "invoked after every processed candidate record
(whether added or skipped)". -/
theorem c8_counterexample_no_callback_on_skip :
    (import_adif ⟨[], [], []⟩ "n4lr" noCancel
        [⟨"Japan", "JA1AAA", "2023-06-15", "Needed", "20m"⟩]
        [⟨"n4lr", "Japan", none, "JA1AAA", "2023-06-15", "Needed", "20m"⟩]).1.skipped = 1 ∧
    (import_adif ⟨[], [], []⟩ "n4lr" noCancel
        [⟨"Japan", "JA1AAA", "2023-06-15", "Needed", "20m"⟩]
        [⟨"n4lr", "Japan", none, "JA1AAA", "2023-06-15", "Needed", "20m"⟩]).2.2 = [] ∧
    ([] : List Nat).length ≠ 1 := by
  decide

/-! ## Claim C5 — import summary arithmetic and idempotence

Supporting lemmas about `add_qso`, `qso_exists` and the import loop. -/

/-- The insert `add_qso` appends exactly one row, carrying the dedup-key fields and the
status unchanged (only country/prefix are derived). -/
theorem add_qso_append (env : ResolveEnv) (db : List DBRow)
    (user country call date status band : String) :
    ∃ c1 p1, add_qso env db user country call date status band =
      db ++ [⟨user, c1, p1, call, date, status, band⟩] :=
  ⟨_, _, rfl⟩

/-- A dedup-key hit survives appending rows (the first match stays first). -/
theorem qso_exists_append (db ext : List DBRow) (user call date band s : String)
    (h : qso_exists db user call date band = some s) :
    qso_exists (db ++ ext) user call date band = some s := by
  unfold qso_exists at h ⊢
  obtain ⟨r, hr, hs⟩ := Option.map_eq_some'.mp h
  rw [List.find?_append, hr]
  simpa using hs

/-- A truthy dedup hit survives appending rows. -/
theorem truthy_exists_append (db ext : List DBRow) (user : String) (c : Candidate)
    (h : truthy_exists db user c) : truthy_exists (db ++ ext) user c := by
  unfold truthy_exists at h ⊢
  cases hq : qso_exists db user c.call c.date c.band with
  | none => rw [hq] at h; simp at h
  | some s =>
    rw [qso_exists_append db ext user c.call c.date c.band s hq]
    rw [hq] at h
    exact h

/-- Appending the row `add_qso` builds for a candidate makes its dedup key hit
that row (when the key was previously absent), with the candidate's status. -/
theorem qso_exists_self (db : List DBRow) (user c1 : String) (p1 : Option String)
    (call date status band : String)
    (h : qso_exists db user call date band = none) :
    qso_exists (db ++ [⟨user, c1, p1, call, date, status, band⟩]) user call date band =
      some status := by
  unfold qso_exists at h ⊢
  rw [List.find?_append, Option.map_eq_none'.mp h]
  simp [List.find?]

/-- The import loop only ever appends to the table. -/
theorem import_go_db_ext (env : ResolveEnv) (user : String) (cancel : Nat → Bool)
    (total : Nat) (l : List Candidate) : ∀ (i : Nat) (db : List DBRow),
    ∃ ext, (import_go env user cancel total l i db).db = db ++ ext := by
  induction l with
  | nil => exact fun i db => ⟨[], by simp [import_go_nil]⟩
  | cons c rest ih =>
    intro i db
    by_cases hcan : cancel i = true
    · exact ⟨[], by simp [import_go_cancel env user cancel total i db c rest hcan]⟩
    · rw [Bool.not_eq_true] at hcan
      by_cases hd : c.date = ""
      · rw [import_go_dateless env user cancel total i db c rest hcan hd]
        exact ih (i + 1) db
      · by_cases he : (qso_exists db user c.call c.date c.band).getD "" ≠ ""
        · rw [import_go_skip env user cancel total i db c rest hcan hd he]
          exact ih (i + 1) db
        · rw [import_go_add env user cancel total i db c rest hcan hd he]
          obtain ⟨c1, p1, hadd⟩ :=
            add_qso_append env db user c.country c.call c.date c.status c.band
          obtain ⟨ext, hext⟩ :=
            ih (i + 1) (add_qso env db user c.country c.call c.date c.status c.band)
          refine ⟨⟨user, c1, p1, c.call, c.date, c.status, c.band⟩ :: ext, ?_⟩
          show (import_go env user cancel total rest (i + 1)
            (add_qso env db user c.country c.call c.date c.status c.band)).db = _
          rw [hext, hadd, List.append_assoc]
          rfl

/-- Every row of the loop's output table has a non-empty status, provided the
input table does and every candidate's status is non-empty. -/
theorem import_go_status_invariant (env : ResolveEnv) (user : String)
    (cancel : Nat → Bool) (total : Nat) (l : List Candidate) :
    ∀ (i : Nat) (db : List DBRow),
      (∀ r ∈ db, r.qsl_status ≠ "") → (∀ c ∈ l, c.status ≠ "") →
      ∀ r ∈ (import_go env user cancel total l i db).db, r.qsl_status ≠ "" := by
  induction l with
  | nil => intro i db hdb _; simpa [import_go_nil] using hdb
  | cons c rest ih =>
    intro i db hdb hst
    by_cases hcan : cancel i = true
    · simpa [import_go_cancel env user cancel total i db c rest hcan] using hdb
    · rw [Bool.not_eq_true] at hcan
      have hst' : ∀ x ∈ rest, x.status ≠ "" :=
        fun x hx => hst x (List.mem_cons_of_mem _ hx)
      by_cases hd : c.date = ""
      · rw [import_go_dateless env user cancel total i db c rest hcan hd]
        exact ih (i + 1) db hdb hst'
      · by_cases he : (qso_exists db user c.call c.date c.band).getD "" ≠ ""
        · rw [import_go_skip env user cancel total i db c rest hcan hd he]
          exact ih (i + 1) db hdb hst'
        · rw [import_go_add env user cancel total i db c rest hcan hd he]
          intro r hr
          obtain ⟨c1, p1, hadd⟩ :=
            add_qso_append env db user c.country c.call c.date c.status c.band
          refine ih (i + 1) _ ?_ hst' r hr
          rw [hadd]
          intro x hx
          rcases List.mem_append.mp hx with hx | hx
          · exact hdb x hx
          · rcases List.mem_singleton.mp hx with rfl
            exact hst c (List.mem_cons_self c rest)

/-- After a full no-cancel run, every dated candidate's dedup key has a truthy
hit in the output table. -/
theorem import_go_covers (env : ResolveEnv) (user : String) (total : Nat)
    (l : List Candidate) : ∀ (i : Nat) (db : List DBRow),
      (∀ r ∈ db, r.qsl_status ≠ "") → (∀ c ∈ l, c.status ≠ "") →
      ∀ c ∈ l, c.date ≠ "" →
        truthy_exists (import_go env user noCancel total l i db).db user c := by
  induction l with
  | nil => intro i db _ _ c hc; exact absurd hc (List.not_mem_nil c)
  | cons c0 rest ih =>
    intro i db hdb hst c hc hcd
    have hcan : noCancel i = false := rfl
    have hst' : ∀ x ∈ rest, x.status ≠ "" :=
      fun x hx => hst x (List.mem_cons_of_mem _ hx)
    by_cases hd : c0.date = ""
    · rw [import_go_dateless env user noCancel total i db c0 rest hcan hd]
      rcases List.mem_cons.mp hc with rfl | hc'
      · exact absurd hd hcd
      · exact ih (i + 1) db hdb hst' c hc' hcd
    · by_cases he : (qso_exists db user c0.call c0.date c0.band).getD "" ≠ ""
      · rw [import_go_skip env user noCancel total i db c0 rest hcan hd he]
        rcases List.mem_cons.mp hc with rfl | hc'
        · obtain ⟨ext, hext⟩ := import_go_db_ext env user noCancel total rest (i + 1) db
          show truthy_exists (import_go env user noCancel total rest (i + 1) db).db user c
          rw [hext]
          exact truthy_exists_append db ext user c he
        · exact ih (i + 1) db hdb hst' c hc' hcd
      · rw [import_go_add env user noCancel total i db c0 rest hcan hd he]
        obtain ⟨c1, p1, hadd⟩ :=
          add_qso_append env db user c0.country c0.call c0.date c0.status c0.band
        have hnone : qso_exists db user c0.call c0.date c0.band = none := by
          cases hq : qso_exists db user c0.call c0.date c0.band with
          | none => rfl
          | some s =>
            exfalso
            apply he
            rw [hq]
            obtain ⟨r, hr, hs⟩ := Option.map_eq_some'.mp hq
            have : r ∈ db := List.mem_of_find?_eq_some hr
            simpa [hs] using hdb r this
        have hdb1 : ∀ r ∈ add_qso env db user c0.country c0.call c0.date c0.status c0.band,
            r.qsl_status ≠ "" := by
          rw [hadd]
          intro x hx
          rcases List.mem_append.mp hx with hx | hx
          · exact hdb x hx
          · rcases List.mem_singleton.mp hx with rfl
            exact hst c0 (List.mem_cons_self c0 rest)
        rcases List.mem_cons.mp hc with rfl | hc'
        · obtain ⟨ext, hext⟩ := import_go_db_ext env user noCancel total rest (i + 1)
            (add_qso env db user c.country c.call c.date c.status c.band)
          show truthy_exists (import_go env user noCancel total rest (i + 1)
            (add_qso env db user c.country c.call c.date c.status c.band)).db user c
          rw [hext]
          refine truthy_exists_append _ ext user c ?_
          unfold truthy_exists
          rw [hadd, qso_exists_self db user c1 p1 c.call c.date c.status c.band hnone]
          simpa using hst c (List.mem_cons_self c rest)
        · exact ih (i + 1) _ hdb1 hst' c hc' hcd

/-- When every dated candidate already has a truthy dedup hit, a no-cancel run
adds nothing, skips exactly the dated candidates, and leaves the table as is. -/
theorem import_go_all_skip (env : ResolveEnv) (user : String) (total : Nat)
    (l : List Candidate) : ∀ (i : Nat) (db : List DBRow),
      (∀ c ∈ l, c.date ≠ "" → truthy_exists db user c) →
      (import_go env user noCancel total l i db).added = 0 ∧
      (import_go env user noCancel total l i db).skipped =
        (l.filter (fun c => c.date ≠ "")).length ∧
      (import_go env user noCancel total l i db).db = db := by
  induction l with
  | nil => intro i db _; simp [import_go_nil]
  | cons c rest ih =>
    intro i db hcov
    have hcan : noCancel i = false := rfl
    have hcov' : ∀ x ∈ rest, x.date ≠ "" → truthy_exists db user x :=
      fun x hx => hcov x (List.mem_cons_of_mem _ hx)
    by_cases hd : c.date = ""
    · rw [import_go_dateless env user noCancel total i db c rest hcan hd]
      obtain ⟨h1, h2, h3⟩ := ih (i + 1) db hcov'
      refine ⟨h1, ?_, h3⟩
      rw [h2, List.filter_cons]
      simp [hd]
    · have he : (qso_exists db user c.call c.date c.band).getD "" ≠ "" :=
        hcov c (List.mem_cons_self c rest) hd
      rw [import_go_skip env user noCancel total i db c rest hcan hd he]
      obtain ⟨h1, h2, h3⟩ := ih (i + 1) db hcov'
      refine ⟨h1, ?_, h3⟩
      show (import_go env user noCancel total rest (i + 1) db).skipped + 1 = _
      rw [h2, List.filter_cons]
      simp [hd]

/-- The sum `added + skipped` never exceeds the number of candidates processed. -/
theorem import_go_count_le (env : ResolveEnv) (user : String) (cancel : Nat → Bool)
    (total : Nat) (l : List Candidate) : ∀ (i : Nat) (db : List DBRow),
    (import_go env user cancel total l i db).added +
      (import_go env user cancel total l i db).skipped ≤ l.length := by
  induction l with
  | nil => intro i db; simp [import_go_nil]
  | cons c rest ih =>
    intro i db
    by_cases hcan : cancel i = true
    · simp [import_go_cancel env user cancel total i db c rest hcan]
    · rw [Bool.not_eq_true] at hcan
      by_cases hd : c.date = ""
      · rw [import_go_dateless env user cancel total i db c rest hcan hd]
        exact le_trans (ih (i + 1) db) (by simp)
      · by_cases he : (qso_exists db user c.call c.date c.band).getD "" ≠ ""
        · rw [import_go_skip env user cancel total i db c rest hcan hd he]
          have := ih (i + 1) db
          show (import_go env user cancel total rest (i + 1) db).added +
            ((import_go env user cancel total rest (i + 1) db).skipped + 1) ≤ rest.length + 1
          omega
        · rw [import_go_add env user cancel total i db c rest hcan hd he]
          have := ih (i + 1) (add_qso env db user c.country c.call c.date c.status c.band)
          show (import_go env user cancel total rest (i + 1)
              (add_qso env db user c.country c.call c.date c.status c.band)).added + 1 +
            (import_go env user cancel total rest (i + 1)
              (add_qso env db user c.country c.call c.date c.status c.band)).skipped ≤
            rest.length + 1
          omega

/-- C5: refuted as stated.  A candidate with no date is counted in `total` but
never inserted and never skipped, so a second run over the same file reports
`skipped = 0 ≠ 1 = total` (though `added = 0` does hold). -/
theorem c5_counterexample_dateless_breaks_idempotence :
    (import_adif ⟨[], [], []⟩ "n4lr" noCancel [⟨"", "K1AA", "", "Needed", ""⟩]
        (import_adif ⟨[], [], []⟩ "n4lr" noCancel [⟨"", "K1AA", "", "Needed", ""⟩]
          []).2.1).1 = ⟨0, 0, 1⟩ ∧
    (0 : Nat) ≠ 1 := by
  decide

/-- C5 (amended): `added + skipped ≤ total` holds for every run (with `total` the
parser-emitted candidate count), and a second no-cancel run of the same candidate
list for the same user yields `added = 0` and `skipped` equal to the number of
candidates with a non-empty date — which equals `total` only when every candidate
is dated.  The initial table must hold no empty-status row (Python's
`if existing:` treats an empty stored status as absent). -/
theorem c5_import_totals_and_idempotence (env : ResolveEnv) (user : String)
    (records : List Candidate) (db : List DBRow)
    (hdb : ∀ r ∈ db, r.qsl_status ≠ "") (hst : ∀ c ∈ records, c.status ≠ "") :
    (∀ (cancel : Nat → Bool) (db2 : List DBRow),
      (import_adif env user cancel records db2).1.added +
          (import_adif env user cancel records db2).1.skipped ≤
        (import_adif env user cancel records db2).1.total) ∧
    (import_adif env user noCancel records db).1.total = records.length ∧
    (import_adif env user noCancel records
        (import_adif env user noCancel records db).2.1).1.added = 0 ∧
    (import_adif env user noCancel records
        (import_adif env user noCancel records db).2.1).1.skipped =
      (records.filter (fun c => c.date ≠ "")).length := by
  refine ⟨fun cancel db2 => import_go_count_le env user cancel records.length records 1 db2,
    rfl, ?_, ?_⟩
  · exact (import_go_all_skip env user records.length records 1 _
      (fun c hc hcd => import_go_covers env user records.length records 1 db hdb hst c hc hcd)).1
  · exact (import_go_all_skip env user records.length records 1 _
      (fun c hc hcd => import_go_covers env user records.length records 1 db hdb hst c hc hcd)).2.1

/-- C5 witness: a dated and a dateless candidate over an empty table; the second
run adds nothing and skips exactly the one dated candidate. -/
theorem c5_import_totals_and_idempotence_witness :
    (import_adif ⟨[], [], []⟩ "n4lr" noCancel
        [⟨"Japan", "JA1AAA", "2023-06-15", "Needed", "20m"⟩, ⟨"", "K1AA", "", "Needed", ""⟩]
        ((import_adif ⟨[], [], []⟩ "n4lr" noCancel
          [⟨"Japan", "JA1AAA", "2023-06-15", "Needed", "20m"⟩, ⟨"", "K1AA", "", "Needed", ""⟩]
          []).2.1)).1.added = 0 ∧
    (import_adif ⟨[], [], []⟩ "n4lr" noCancel
        [⟨"Japan", "JA1AAA", "2023-06-15", "Needed", "20m"⟩, ⟨"", "K1AA", "", "Needed", ""⟩]
        ((import_adif ⟨[], [], []⟩ "n4lr" noCancel
          [⟨"Japan", "JA1AAA", "2023-06-15", "Needed", "20m"⟩, ⟨"", "K1AA", "", "Needed", ""⟩]
          []).2.1)).1.skipped = 1 := by
  have h := c5_import_totals_and_idempotence ⟨[], [], []⟩ "n4lr"
    [⟨"Japan", "JA1AAA", "2023-06-15", "Needed", "20m"⟩, ⟨"", "K1AA", "", "Needed", ""⟩]
    [] (by simp) (by decide)
  exact ⟨h.2.2.1, h.2.2.2.trans (by decide)⟩

/-! ## Claim C4 — need-list membership and output order

Supporting lemmas characterizing the pair sets of `get_dxcc_need_list`. -/

/-- What one row contributes to the pair scan, as a predicate. -/
theorem need_row_out_eq_some (env : ResolveEnv) (incl : Bool) (r : DBRow)
    (e b : String) :
    need_row_out env incl r = some (e, b) ↔
      need_row_hits env incl r e = true ∧ r.band = b := by
  unfold need_row_out need_row_hits
  rcases hef : entity_for_callsign env r.call_worked with ⟨eo, nm, ac⟩
  cases eo with
  | none => simp
  | some e1 =>
    dsimp only
    by_cases hcond : e1 ≠ "" ∧ (incl = true ∨ ac = true)
    · rw [if_pos hcond]
      simp only [Option.some.injEq, Prod.mk.injEq, decide_eq_true_eq]
      constructor
      · rintro ⟨rfl, rfl⟩
        exact ⟨⟨rfl, hcond⟩, rfl⟩
      · rintro ⟨⟨rfl, _⟩, hb⟩
        exact ⟨rfl, hb⟩
    · rw [if_neg hcond]
      simp only [decide_eq_true_eq]
      constructor
      · intro h
        exact absurd h (by simp)
      · rintro ⟨⟨rfl, hc⟩, _⟩
        exact absurd hc hcond

/-- Membership in the fetched row set. -/
theorem fetch_user_rows_mem (db : List DBRow) (user : String) (bands : List String)
    (r : DBRow) :
    r ∈ fetch_user_rows db user bands ↔
      r ∈ db ∧ r.callsign = user ∧ (bands = [] ∨ r.band ∈ bands) := by
  unfold fetch_user_rows
  simp [List.mem_filter, and_assoc]

/-- Membership in the per-band worked set, phrased over the raw table (under a
tracked band). -/
theorem need_worked_pairs_mem (env : ResolveEnv) (incl : Bool) (db : List DBRow)
    (user : String) (bands : List String) (e b : String) (hb : b ∈ bands) :
    (e, b) ∈ need_worked_pairs env incl (fetch_user_rows db user bands) ↔
      ∃ r ∈ db, r.callsign = user ∧ r.band = b ∧ need_row_hits env incl r e = true := by
  unfold need_worked_pairs
  rw [List.mem_filterMap]
  constructor
  · rintro ⟨r, hr, hout⟩
    obtain ⟨hhit, hband⟩ := (need_row_out_eq_some env incl r e b).mp hout
    obtain ⟨hdb, hcs, _⟩ := (fetch_user_rows_mem db user bands r).mp hr
    exact ⟨r, hdb, hcs, hband, hhit⟩
  · rintro ⟨r, hdb, hcs, hband, hhit⟩
    refine ⟨r, (fetch_user_rows_mem db user bands r).mpr
      ⟨hdb, hcs, Or.inr (hband ▸ hb)⟩, ?_⟩
    exact (need_row_out_eq_some env incl r e b).mpr ⟨hhit, hband⟩

/-- Membership in the per-band confirmed set, phrased over the raw table (under a
tracked band). -/
theorem need_confirmed_pairs_mem (env : ResolveEnv) (incl : Bool) (db : List DBRow)
    (user : String) (bands : List String) (e b : String) (hb : b ∈ bands) :
    (e, b) ∈ need_confirmed_pairs env incl (fetch_user_rows db user bands) ↔
      ∃ r ∈ db, r.callsign = user ∧ r.band = b ∧ need_row_hits env incl r e = true ∧
        r.qsl_status ∈ (["Confirmed", "LoTW", "QSL"] : List String) := by
  unfold need_confirmed_pairs
  rw [List.mem_filterMap]
  constructor
  · rintro ⟨r, hr, hout⟩
    obtain ⟨hhit, hband⟩ := (need_row_out_eq_some env incl r e b).mp hout
    obtain ⟨hr1, hst⟩ := List.mem_filter.mp hr
    obtain ⟨hdb, hcs, _⟩ := (fetch_user_rows_mem db user bands r).mp hr1
    exact ⟨r, hdb, hcs, hband, hhit, by simpa using hst⟩
  · rintro ⟨r, hdb, hcs, hband, hhit, hst⟩
    refine ⟨r, List.mem_filter.mpr ⟨(fetch_user_rows_mem db user bands r).mpr
      ⟨hdb, hcs, Or.inr (hband ▸ hb)⟩, by simpa using hst⟩, ?_⟩
    exact (need_row_out_eq_some env incl r e b).mpr ⟨hhit, hband⟩

/-- First-key lookup agrees with membership when the keys are distinct (as in a
Python dict). -/
theorem dictGet_eq_some_iff (m : List (String × DXCCEntity)) (k : String)
    (v : DXCCEntity) (hkeys : (m.map Prod.fst).Nodup) :
    dictGet m k = some v ↔ (k, v) ∈ m := by
  induction m with
  | nil => simp [dictGet]
  | cons kv m' ih =>
    have hk' : (m'.map Prod.fst).Nodup := (List.nodup_cons.mp hkeys).2
    have hnotin : kv.1 ∉ m'.map Prod.fst := (List.nodup_cons.mp hkeys).1
    rcases kv with ⟨k0, v0⟩
    unfold dictGet at ih ⊢
    by_cases hkk : k0 = k
    · subst hkk
      rw [List.find?_cons_of_pos _ (by simp)]
      simp only [Option.map_some']
      constructor
      · intro h
        have hv : v0 = v := by simpa using h
        subst hv
        exact List.mem_cons_self _ _
      · intro h
        rcases List.mem_cons.mp h with h | h
        · have hv : v = v0 := (Prod.ext_iff.mp h).2
          rw [hv]
        · exact absurd (List.mem_map.mpr ⟨(k0, v), h, rfl⟩) hnotin
    · rw [List.find?_cons_of_neg _ (by simpa using hkk)]
      rw [ih hk']
      constructor
      · exact fun h => List.mem_cons_of_mem _ h
      · intro h
        rcases List.mem_cons.mp h with h | h
        · exact absurd (Prod.ext_iff.mp h).1.symm hkk
        · exact h

/-- C4: refuted as stated in its ordering conjunct.  With directory insertion
order `B` before `A` and both entities worked-unconfirmed on the single tracked
band, the need list comes out `[B, A]` — directory order, not sorted by entity
id. -/
theorem c4_counterexample_output_not_sorted :
    get_dxcc_need_list
        ⟨[("B", ⟨"B", "Bee", true⟩), ("A", ⟨"A", "Ay", true⟩)],
         [⟨"B", "B"⟩, ⟨"A", "A"⟩], []⟩
        [⟨"me", "", none, "B1X", "2023-01-01", "Needed", "20m"⟩,
         ⟨"me", "", none, "A1X", "2023-01-01", "Needed", "20m"⟩]
        "me" ["20m"] false =
      [("B", "Bee", "20m"), ("A", "Ay", "20m")] ∧
    sorted_by_entity_then_band [("B", "Bee", "20m"), ("A", "Ay", "20m")] = false := by
  decide

/-- C4 (amended): `(eid, name, band)` is in the need list iff the directory has
entity `eid` with display name `name`, the entity survives the `include_deleted`
filter, `band` is tracked, and — per band, over the user's rows — the pair is
worked but not confirmed-equivalent; the output order, however, is directory
insertion order (then tracked-band order), not sorted by entity id then band. -/
theorem c4_need_list_mem_iff (env : ResolveEnv) (db : List DBRow) (user : String)
    (bands : List String) (incl : Bool) (eid name band : String)
    (hkeys : (env.entities.map Prod.fst).Nodup) :
    (eid, name, band) ∈ get_dxcc_need_list env db user bands incl ↔
      ∃ ent : DXCCEntity, dictGet env.entities eid = some ent ∧ name = ent.name ∧
        (incl = true ∨ ent.active = true) ∧ band ∈ bands ∧
        (∃ r ∈ db, r.callsign = user ∧ r.band = band ∧
          need_row_hits env incl r eid = true) ∧
        ¬ ∃ r ∈ db, r.callsign = user ∧ r.band = band ∧
          need_row_hits env incl r eid = true ∧
          r.qsl_status ∈ (["Confirmed", "LoTW", "QSL"] : List String) := by
  unfold get_dxcc_need_list
  rw [List.mem_flatMap]
  constructor
  · rintro ⟨kv, hkv, hmem⟩
    by_cases hdel : !incl ∧ !kv.2.active
    · rw [if_pos hdel] at hmem
      exact absurd hmem (List.not_mem_nil _)
    · rw [if_neg hdel] at hmem
      obtain ⟨b, hbbands, hg⟩ := List.mem_filterMap.mp hmem
      by_cases hconf : (kv.1, b) ∈ need_confirmed_pairs env incl (fetch_user_rows db user bands)
      · rw [if_pos hconf] at hg
        exact absurd hg (by simp)
      · rw [if_neg hconf] at hg
        by_cases hwork : (kv.1, b) ∈ need_worked_pairs env incl (fetch_user_rows db user bands)
        · rw [if_pos hwork] at hg
          have htrip := Option.some.inj hg
          have he : kv.1 = eid := (Prod.ext_iff.mp htrip).1
          have hn : kv.2.name = name := (Prod.ext_iff.mp (Prod.ext_iff.mp htrip).2).1
          have hb : b = band := (Prod.ext_iff.mp (Prod.ext_iff.mp htrip).2).2
          subst he
          subst hb
          refine ⟨kv.2, ?_, hn.symm, ?_, hbbands, ?_, ?_⟩
          · exact (dictGet_eq_some_iff env.entities kv.1 kv.2 hkeys).mpr
              (by rcases kv with ⟨k1, v1⟩; exact hkv)
          · by_cases hincl : incl = true
            · exact Or.inl hincl
            · refine Or.inr ?_
              by_cases hact : kv.2.active = true
              · exact hact
              · exfalso
                refine hdel ⟨?_, ?_⟩
                · revert hincl; cases incl <;> simp
                · revert hact; cases kv.2.active <;> simp
          · exact (need_worked_pairs_mem env incl db user bands kv.1 b hbbands).mp hwork
          · intro hc
            exact hconf ((need_confirmed_pairs_mem env incl db user bands kv.1 b
              hbbands).mpr hc)
        · rw [if_neg hwork] at hg
          exact absurd hg (by simp)
  · rintro ⟨ent, hget, hname, hdel, hband, hworked, hnconf⟩
    refine ⟨(eid, ent), (dictGet_eq_some_iff env.entities eid ent hkeys).mp hget, ?_⟩
    have hdel2 : ¬ (!incl ∧ !ent.active) := by
      rcases hdel with h | h <;> simp [h]
    rw [if_neg hdel2]
    refine List.mem_filterMap.mpr ⟨band, hband, ?_⟩
    have hconf : (eid, band) ∉ need_confirmed_pairs env incl (fetch_user_rows db user bands) := by
      intro hc
      exact hnconf ((need_confirmed_pairs_mem env incl db user bands eid band hband).mp hc)
    have hwork : (eid, band) ∈ need_worked_pairs env incl (fetch_user_rows db user bands) :=
      (need_worked_pairs_mem env incl db user bands eid band hband).mpr hworked
    rw [if_neg hconf, if_pos hwork, hname]

/-- C4 witness: Japan worked (Requested) on 20m and confirmed on 40m with tracked
bands `{20m, 40m}`: `(JAPAN, 20m)` is in the need list. -/
theorem c4_need_list_mem_iff_witness :
    ("JAPAN", "Japan", "20m") ∈ get_dxcc_need_list
      ⟨[("JAPAN", ⟨"JAPAN", "Japan", true⟩)], [⟨"JA", "JAPAN"⟩], []⟩
      [⟨"me", "", none, "JA1ABC", "2023-01-01", "Requested", "20m"⟩,
       ⟨"me", "", none, "JA1ABC", "2023-01-02", "Confirmed", "40m"⟩]
      "me" ["20m", "40m"] false :=
  (c4_need_list_mem_iff
      ⟨[("JAPAN", ⟨"JAPAN", "Japan", true⟩)], [⟨"JA", "JAPAN"⟩], []⟩
      [⟨"me", "", none, "JA1ABC", "2023-01-01", "Requested", "20m"⟩,
       ⟨"me", "", none, "JA1ABC", "2023-01-02", "Confirmed", "40m"⟩]
      "me" ["20m", "40m"] false "JAPAN" "Japan" "20m" (by decide)).mpr
    ⟨⟨"JAPAN", "Japan", true⟩, by decide, rfl, by decide, by decide,
     ⟨⟨"me", "", none, "JA1ABC", "2023-01-01", "Requested", "20m"⟩, by decide⟩,
     by decide⟩

end DxccTracker
